import Mathlib

/-!
Verification of the crawl scheduling and retry pipeline of the
reddit_crawler repository, as a shallow embedding in Lean 4.

The embedding mirrors the Python sources:
 - `calculate_backoff`, `reschedule_job`, `post_ids_from_listing`,
   `find_new_posts`, `schedule_post_recrawls`, `crawl_post` and
   `crawl_subreddit` follow `src/reddit_crawler.py`;
 - `LoggingCrawler.crawl_subreddit` follows `src/logging-reddit-crawler.py`.

External effects are made explicit: the list of jobs a handler pushes to
the broker is what the handler returns, the response of the feed client is an
input (`ListingFetch` / `PostFetch`), wall-clock readings are an input
`now : Int` (seconds), and the uniform jitter factor drawn by
`random.uniform(0.75, 1.25)` is an input `jitter : ℚ`.  Timestamps that the
source renders as ISO strings are modelled by their integer epoch value.
Python set iteration (over `new_posts`) has no specified order; it is
modelled by first-occurrence order of the distinct elements, and every
claim stated about it is order-insensitive.
-/

namespace RedditCrawler

/-- Retry-metadata bag travelling as the last positional job argument.
Only the two keys the source reads or writes are modelled; a key that is
absent from the Python dict is `none`. -/
structure RetryMeta where
  retry_count : Option Nat
  previous_retries : Option (List Int)
deriving DecidableEq, Repr

/-- The empty Python dict. -/
def RetryMeta.empty : RetryMeta := ⟨none, none⟩

/-- A positional job argument, covering the value shapes the crawler puts
into job tuples: strings, lists of post-id strings, booleans and the
retry-metadata dict. -/
inductive Arg where
  | str : String → Arg
  | strList : List String → Arg
  | bool : Bool → Arg
  | dict : RetryMeta → Arg
deriving DecidableEq, Repr

/-- A Faktory job as built by `pyfaktory.Job(jobtype=..., args=...,
queue=..., at=...)`; `run_at = none` is an immediate job, `some t` a job
scheduled for epoch second `t`. -/
structure RJob where
  jobtype : String
  args : List Arg
  queue : String
  run_at : Option Int
deriving DecidableEq, Repr

/-- `calculate_backoff` from `src/reddit_crawler.py` lines 38-52:
`int(base_delay * (2 ** retry_count) * jitter)`.  The jitter factor is the
value drawn from `random.uniform(0.75, 1.25)`; for such nonnegative
products Python `int()` truncation coincides with the floor. -/
def calculate_backoff (retry_count : Nat) (base_delay : Nat) (jitter : ℚ) : Int :=
  Int.floor (((base_delay : ℚ) * 2 ^ retry_count) * jitter)

/-- Lines 76-77 of `reschedule_job`: the effective retry count, read from
the explicit parameter or else from the `retry_count` key of a trailing
dict argument; `none` means the Python code raises `IndexError` reading
`args[-1]` of an empty tuple. -/
def current_retry_count (retry_count0 : Option Nat) (args : List Arg) : Option Nat :=
  match retry_count0 with
  | some rc => some rc
  | none =>
    match args.getLast? with
    | some (Arg.dict m) => some (m.retry_count.getD 0)
    | some _ => some 0
    | none => none

/-- Line 89 of `reschedule_job`: the arguments kept in front of the
updated metadata bag (`args[:-1]` when the last argument is a dict, all of
`args` otherwise). -/
def leading_args (args : List Arg) : List Arg :=
  match args.getLast? with
  | some (Arg.dict _) => args.dropLast
  | _ => args

/-- Line 88 of `reschedule_job`: the existing metadata bag (`args[-1]` if
it is a dict, a fresh empty dict otherwise). -/
def bag_of (args : List Arg) : RetryMeta :=
  match args.getLast? with
  | some (Arg.dict m) => m
  | _ => RetryMeta.empty

/-- Outcome of `reschedule_job`: the job pushed and `True` returned,
`False` returned after the max-retries check, or an `IndexError` escaping
(only possible for an empty args tuple). -/
inductive RescheduleOutcome where
  | rescheduled : RJob → RescheduleOutcome
  | dropped : RescheduleOutcome
  | argError : RescheduleOutcome
deriving DecidableEq, Repr

/-- The jobs `reschedule_job` pushed to the broker. -/
def pushed_jobs : RescheduleOutcome → List RJob
  | RescheduleOutcome.rescheduled j => [j]
  | _ => []

/-- The updated metadata bag built at lines 92-95: `retry_count` set to
the incremented count and `now` appended to `previous_retries`. -/
def bump_bag (bag : RetryMeta) (rc : Nat) (now : Int) : RetryMeta :=
  ⟨some (rc + 1), some (bag.previous_retries.getD [] ++ [now])⟩

/-- `reschedule_job` from `src/reddit_crawler.py` lines 54-111, with the
pushed job (if any) returned explicitly. -/
def reschedule_job (jobtype : String) (args : List Arg) (queue : String)
    (retry_count0 : Option Nat) (max_retries : Nat) (now : Int) (jitter : ℚ) :
    RescheduleOutcome :=
  match current_retry_count retry_count0 args with
  | none => RescheduleOutcome.argError
  | some rc =>
    if max_retries ≤ rc then RescheduleOutcome.dropped
    else
      match args.getLast? with
      | none => RescheduleOutcome.argError
      | some _ =>
        let delay := calculate_backoff rc 60 jitter
        RescheduleOutcome.rescheduled
          ⟨jobtype, leading_args args ++ [Arg.dict (bump_bag (bag_of args) rc now)],
           queue, some (now + delay)⟩

/-- A truthy JSON listing returned by `RedditClient.get_subreddit_new`:
either it carries `data.children` (each child contributing `data.id`), or
it is some other truthy JSON shape. -/
inductive Listing where
  | malformed : Listing
  | withChildren : List String → Listing
deriving DecidableEq, Repr

/-- `post_ids_from_listing` from `src/reddit_crawler.py` lines 120-126. -/
def post_ids_from_listing : Listing → List String
  | Listing.malformed => []
  | Listing.withChildren ids => ids

/-- `find_new_posts` from `src/reddit_crawler.py` lines 128-130:
`set(current_post_ids) - set(previous_post_ids)`. -/
def find_new_posts (previous_post_ids current_post_ids : List String) : Finset String :=
  current_post_ids.toFinset \ previous_post_ids.toFinset

/-- One enumeration of the Python set `new_posts` (first-occurrence order
of the distinct new ids); the iteration order of a Python `set` is
unspecified, and every property stated below is insensitive to it. -/
def new_posts_iter (previous_post_ids current_post_ids : List String) : List String :=
  current_post_ids.dedup.filter (fun pid => !previous_post_ids.contains pid)

/-- Response of the feed client for a listing fetch: the distinguished
rate-limit exception, a falsy result (`None` included), or a truthy
listing. -/
inductive ListingFetch where
  | rateLimited : ListingFetch
  | failed : ListingFetch
  | ok : Listing → ListingFetch
deriving DecidableEq, Repr

/-- Configuration values read from `config.json` (data, not code, of the
repository): the poll interval in minutes and the recrawl offsets in
days. -/
structure Config where
  crawl_interval : Int
  recrawl_delays : List Int
deriving DecidableEq, Repr

/-- The immediate `crawl-post` job built at lines 264-266 of
`crawl_subreddit` for one newly discovered post. -/
def new_post_job (subreddit_name post_id : String) : RJob :=
  ⟨"crawl-post", [Arg.str subreddit_name, Arg.str post_id, Arg.bool false,
    Arg.dict RetryMeta.empty], "crawl-post", none⟩

/-- The delayed continuation job built (but, in the source, never pushed)
at lines 275-278 of `crawl_subreddit`. -/
def next_subreddit_job (cfg : Config) (subreddit_name : String)
    (current_post_ids : List String) (now : Int) : RJob :=
  ⟨"crawl-subreddit", [Arg.str subreddit_name, Arg.strList current_post_ids,
    Arg.dict RetryMeta.empty], "crawl-subreddit", some (now + cfg.crawl_interval * 60)⟩

/-- `crawl_subreddit` from `src/reddit_crawler.py` lines 231-285, returning
the jobs it pushes, in push order.  On the success path the source has a
slip at line 279: after the new-post loop it pushes the loop variable
`job` once more instead of the constructed `next_job`; when the loop ran
at least once this duplicates the last pushed `crawl-post` job, and when
it did not run the reference to the unbound local raises, the outer
`except Exception` handler logs it, and nothing after the loop is pushed.
Either way the continuation job is never pushed. -/
def crawl_subreddit (cfg : Config) (subreddit_name : String)
    (previous_post_ids : Option (List String)) (metadata : Option RetryMeta)
    (fetch : ListingFetch) (now : Int) (jitter : ℚ) : List RJob :=
  match fetch with
  | ListingFetch.rateLimited =>
    pushed_jobs (reschedule_job "crawl-subreddit"
      [Arg.str subreddit_name, Arg.strList (previous_post_ids.getD []),
       Arg.dict (metadata.getD RetryMeta.empty)]
      "crawl-subreddit" none 5 now jitter)
  | ListingFetch.failed => []
  | ListingFetch.ok listing =>
    let current_post_ids := post_ids_from_listing listing
    let new_posts := new_posts_iter (previous_post_ids.getD []) current_post_ids
    let post_jobs := new_posts.map (new_post_job subreddit_name)
    match post_jobs.getLast? with
    | some last_job => post_jobs ++ [last_job]
    | none => post_jobs

namespace LoggingCrawler

/-- The immediate `crawl-post` job built at lines 181-183 of
`src/logging-reddit-crawler.py` (no `is_recrawl` or metadata argument in
this variant). -/
def new_post_job (subreddit_name post_id : String) : RJob :=
  ⟨"crawl-post", [Arg.str subreddit_name, Arg.str post_id], "crawl-post", none⟩

/-- `crawl_subreddit` from `src/logging-reddit-crawler.py` lines 160-202,
returning the jobs it pushes.  This variant does not import
`RateLimitException`, so a rate-limit signal propagates to the outer
`except Exception` handler, which logs it and pushes nothing; on the
success path it pushes `next_job` correctly (line 196). -/
def crawl_subreddit (cfg : Config) (subreddit_name : String)
    (previous_post_ids : List String) (fetch : ListingFetch) (now : Int) : List RJob :=
  match fetch with
  | ListingFetch.rateLimited => []
  | ListingFetch.failed => []
  | ListingFetch.ok listing =>
    let current_post_ids := post_ids_from_listing listing
    let new_posts := new_posts_iter previous_post_ids current_post_ids
    let post_jobs := new_posts.map (new_post_job subreddit_name)
    post_jobs ++ [⟨"crawl-subreddit",
      [Arg.str subreddit_name, Arg.strList current_post_ids],
      "crawl-subreddit", some (now + cfg.crawl_interval * 60)⟩]

end LoggingCrawler

/-- The fields of `post_data[0].data.children[0].data` that
`crawl_post` reads. -/
structure MainPost where
  title : String
  author : String
  created_utc : Int
  score : Int
deriving DecidableEq, Repr

/-- The fields of one element of `post_data[1].data.children`
(`comment.data`) that `crawl_post` reads. -/
structure CommentData where
  id : String
  parent_id : String
  author : String
  created_utc : Int
  score : Int
  body : String
deriving DecidableEq, Repr

/-- A well-shaped response of `RedditClient.get_post_comments`. -/
structure PostData where
  main : MainPost
  comments : List CommentData
deriving DecidableEq, Repr

/-- Response of the feed client for a post fetch. -/
inductive PostFetch where
  | rateLimited : PostFetch
  | failed : PostFetch
  | ok : PostData → PostFetch
deriving DecidableEq, Repr

/-- A row of the `reddit_posts` table, with the columns the INSERT at
lines 181-193 touches; the opaque JSON `data` payload is modelled by the
`MainPost` value itself. -/
structure PostRow where
  subreddit : String
  post_id : String
  title : String
  author : String
  created_utc : Int
  score : Int
  data : MainPost
  last_updated : Int
  crawled_at : Int
deriving DecidableEq, Repr

/-- A row of the `reddit_comments` table (lines 199-213). -/
structure CommentRow where
  post_id : String
  comment_id : String
  parent_id : String
  author : String
  created_utc : Int
  score : Int
  body : String
  data : CommentData
  last_updated : Int
  crawled_at : Int
deriving DecidableEq, Repr

/-- The durable store: both tables. -/
structure DB where
  reddit_posts : List PostRow
  reddit_comments : List CommentRow
deriving DecidableEq, Repr

/-- The conflict action of the item upsert at lines 181-193: `ON CONFLICT
(post_id) DO UPDATE SET title, score, data, last_updated, crawled_at` —
only those five columns are replaced; the existing `subreddit`, `author`
and `created_utc` column values stay, and rows under other keys are
untouched. -/
def overwrite_post (r old : PostRow) : PostRow :=
  if old.post_id == r.post_id then
    ⟨old.subreddit, old.post_id, r.title, old.author, old.created_utc,
     r.score, r.data, r.last_updated, r.crawled_at⟩
  else old

/-- The item upsert of lines 181-193: `INSERT INTO reddit_posts ... ON
CONFLICT (post_id) DO UPDATE ...`, an insert-or-update keyed by
`post_id`. -/
def upsert_post_row (rows : List PostRow) (r : PostRow) : List PostRow :=
  if rows.any (fun old => old.post_id == r.post_id) then
    rows.map (overwrite_post r)
  else rows ++ [r]

/-- The child upsert of lines 199-213: `ON CONFLICT (comment_id) DO UPDATE
SET score, body, data, last_updated, crawled_at`. -/
def upsert_comment_row (rows : List CommentRow) (r : CommentRow) : List CommentRow :=
  if rows.any (fun old => old.comment_id == r.comment_id) then
    rows.map (fun old =>
      if old.comment_id == r.comment_id then
        ⟨old.post_id, old.comment_id, old.parent_id, old.author,
         old.created_utc, r.score, r.body, r.data, r.last_updated, r.crawled_at⟩
      else old)
  else rows ++ [r]

/-- One SQL write executed inside the transaction of `crawl_post`. -/
inductive Write where
  | post : PostRow → Write
  | comment : CommentRow → Write
deriving DecidableEq, Repr

/-- Apply one write to the store. -/
def apply_write (db : DB) : Write → DB
  | Write.post r => ⟨upsert_post_row db.reddit_posts r, db.reddit_comments⟩
  | Write.comment r => ⟨db.reddit_posts, upsert_comment_row db.reddit_comments r⟩

/-- The writes `crawl_post` executes, in source order, inside its single
connection block: the item upsert (line 189) followed by one child upsert
per comment (line 208).  `NOW()` is modelled by the `now` of the invocation. -/
def post_tx_writes (subreddit post_id : String) (pd : PostData) (now : Int) : List Write :=
  Write.post ⟨subreddit, post_id, pd.main.title, pd.main.author,
      pd.main.created_utc, pd.main.score, pd.main, now, now⟩ ::
    pd.comments.map (fun c =>
      Write.comment ⟨post_id, c.id, c.parent_id, c.author, c.created_utc,
        c.score, c.body, c, now, now⟩)

/-- Outcome of the database transaction of `crawl_post`: every `execute`
succeeded and `conn.commit()` ran, or the write with the given index
raised `psycopg2.Error` before the commit.  In the latter case the
`with psycopg2.connect(...)` block exits on the exception and rolls the
open transaction back, so none of the writes reaches the store. -/
inductive TxOutcome where
  | committed : TxOutcome
  | failedAt : Nat → TxOutcome
deriving DecidableEq, Repr

/-- What a `crawl_post` invocation did: the store afterwards, the jobs it
pushed (in push order) and whether it logged at error level. -/
structure CrawlPostResult where
  db : DB
  jobs : List RJob
  error_logged : Bool
deriving DecidableEq, Repr

/-- `schedule_post_recrawls` from `src/reddit_crawler.py` lines 132-148:
one delayed `crawl-post` job per configured recrawl offset (in days),
each with `is_recrawl = True` and an empty metadata dict. -/
def schedule_post_recrawls (cfg : Config) (subreddit post_id : String) (now : Int) : List RJob :=
  cfg.recrawl_delays.map (fun d =>
    ⟨"crawl-post", [Arg.str subreddit, Arg.str post_id, Arg.bool true,
      Arg.dict RetryMeta.empty], "crawl-post", some (now + d * 86400)⟩)

/-- `crawl_post` from `src/reddit_crawler.py` lines 150-229.  On a
rate-limit signal it delegates to `reschedule_job` (logging an error only
when the retry cap was exceeded); on a falsy fetch it logs a warning and
stops; otherwise it runs the single transaction and, only when the
transaction committed, schedules recrawls for an initial crawl of a
positively scored post.  A `psycopg2.Error` is caught at line 226: the
handler logs an error, pushes nothing and does not reschedule. -/
def crawl_post (cfg : Config) (subreddit post_id : String) (is_recrawl : Bool)
    (metadata : Option RetryMeta) (fetch : PostFetch) (tx : TxOutcome)
    (db : DB) (now : Int) (jitter : ℚ) : CrawlPostResult :=
  match fetch with
  | PostFetch.rateLimited =>
    match reschedule_job "crawl-post"
        [Arg.str subreddit, Arg.str post_id, Arg.bool is_recrawl,
         Arg.dict (metadata.getD RetryMeta.empty)]
        "crawl-post" none 5 now jitter with
    | RescheduleOutcome.rescheduled j => ⟨db, [j], false⟩
    | _ => ⟨db, [], true⟩
  | PostFetch.failed => ⟨db, [], false⟩
  | PostFetch.ok pd =>
    match tx with
    | TxOutcome.failedAt _ => ⟨db, [], true⟩
    | TxOutcome.committed =>
      let db2 := (post_tx_writes subreddit post_id pd now).foldl apply_write db
      let jobs :=
        if is_recrawl = false ∧ 0 < pd.main.score then
          schedule_post_recrawls cfg subreddit post_id now
        else []
      ⟨db2, jobs, false⟩

/-! Sample inputs used for concrete evaluations of the definitions. -/

/-- A sample configuration: 30-minute poll interval, recrawls after 1, 3
and 7 days. -/
def cfg0 : Config := ⟨30, [1, 3, 7]⟩

/-- A sample job-args tuple with one retry already recorded. -/
def retry_args0 : List Arg := [Arg.str "x", Arg.dict ⟨some 1, some [5]⟩]

/-- The job a rate-limited `crawl_subreddit "x" (some ["a"])` invocation
pushes on its first retry at time 0 with jitter factor 1. -/
def rl_job0 : RJob :=
  ⟨"crawl-subreddit", [Arg.str "x", Arg.strList ["a"], Arg.dict ⟨some 1, some [0]⟩],
   "crawl-subreddit", some (0 + calculate_backoff 0 60 1)⟩

/-- A sample fetched post with positive score and one comment. -/
def pd0 : PostData := ⟨⟨"t", "auth", 0, 5⟩, [⟨"c1", "t3_p", "auth2", 1, 2, "body"⟩]⟩

/-- The empty store. -/
def db0 : DB := ⟨[], []⟩

/-- A first upsert row for post `"p"`, score 1, written at time 10. -/
def row1 : PostRow := ⟨"x", "p", "t1", "auth", 0, 1, ⟨"t1", "auth", 0, 1⟩, 10, 10⟩

/-- A second upsert row for the same post `"p"`, score 2, at time 20. -/
def row2 : PostRow := ⟨"x", "p", "t2", "auth", 0, 2, ⟨"t2", "auth", 0, 2⟩, 20, 20⟩

/-! Theorems. -/

/-- Claim C7: `find_new_posts` computes exactly the set difference
`current − known`: membership is equivalent to being in the current list
and not in the known list, `find_new_posts S S` is empty for every `S`,
and `find_new_posts [] [a, b]` is `{a, b}`. -/
theorem find_new_posts_is_set_difference :
    (∀ (known current : List String) (x : String),
        x ∈ find_new_posts known current ↔ x ∈ current ∧ x ∉ known) ∧
    (∀ S : List String, find_new_posts S S = ∅) ∧
    find_new_posts [] ["a", "b"] = {"a", "b"} := by
  refine ⟨fun known current x => ?_, fun S => ?_, ?_⟩
  · simp [find_new_posts]
  · simp [find_new_posts]
  · decide

/-- Computation lemma: with an effective retry count at or above the cap,
`reschedule_job` returns `dropped`. -/
theorem reschedule_job_dropped_eq (jobtype queue : String) (args : List Arg)
    (retry_count0 : Option Nat) (max_retries : Nat) (now : Int) (jitter : ℚ) (rc : Nat)
    (hrc : current_retry_count retry_count0 args = some rc)
    (hge : max_retries ≤ rc) :
    reschedule_job jobtype args queue retry_count0 max_retries now jitter =
      RescheduleOutcome.dropped := by
  simp only [reschedule_job, hrc]
  rw [if_pos hge]

/-- Computation lemma: with an effective retry count below the cap and a
nonempty args tuple, `reschedule_job` returns the rescheduled job built
from the leading arguments and the bumped bag. -/
theorem reschedule_job_rescheduled_eq (jobtype queue : String) (args : List Arg)
    (retry_count0 : Option Nat) (max_retries : Nat) (now : Int) (jitter : ℚ) (rc : Nat)
    (hrc : current_retry_count retry_count0 args = some rc)
    (hlt : rc < max_retries) (hne : args ≠ []) :
    reschedule_job jobtype args queue retry_count0 max_retries now jitter =
      RescheduleOutcome.rescheduled
        ⟨jobtype, leading_args args ++ [Arg.dict (bump_bag (bag_of args) rc now)],
         queue, some (now + calculate_backoff rc 60 jitter)⟩ := by
  obtain ⟨a, ha⟩ := Option.isSome_iff_exists.mp (List.getLast?_isSome.mpr hne)
  simp only [reschedule_job, hrc, ha]
  rw [if_neg (Nat.not_le.mpr hlt)]

/-- Claim C4: `reschedule_job` invoked with an effective retry count at or
above `max_retries` returns `False` (modelled `dropped`) and pushes no
job. -/
theorem reschedule_job_at_cap (jobtype queue : String) (args : List Arg)
    (retry_count0 : Option Nat) (max_retries : Nat) (now : Int) (jitter : ℚ) (rc : Nat)
    (hrc : current_retry_count retry_count0 args = some rc)
    (hge : max_retries ≤ rc) :
    reschedule_job jobtype args queue retry_count0 max_retries now jitter =
      RescheduleOutcome.dropped ∧
    pushed_jobs (reschedule_job jobtype args queue retry_count0 max_retries now jitter) = [] := by
  have h := reschedule_job_dropped_eq jobtype queue args retry_count0 max_retries now jitter
    rc hrc hge
  exact ⟨h, by rw [h]; rfl⟩

/-- Witness for C4: at the default cap 5 with a bag already at
`retry_count = 5`, the call is dropped and nothing is pushed. -/
theorem reschedule_job_at_cap_witness :
    reschedule_job "crawl-post" [Arg.dict ⟨some 5, some []⟩] "crawl-post" none 5 0 1 =
      RescheduleOutcome.dropped ∧
    pushed_jobs (reschedule_job "crawl-post" [Arg.dict ⟨some 5, some []⟩]
      "crawl-post" none 5 0 1) = [] :=
  reschedule_job_at_cap "crawl-post" "crawl-post" [Arg.dict ⟨some 5, some []⟩]
    none 5 0 1 5 rfl (le_refl 5)

/-- Claim C3: `reschedule_job` invoked with an effective retry count below
`max_retries` pushes exactly one job: same kind, same queue, same leading
arguments, the `retry_count` of the bag incremented by exactly one, its
`previous_retries` extended by exactly one entry, scheduled at `now` plus
the computed backoff delay, and the call reports it was rescheduled. -/
theorem reschedule_job_below_cap (jobtype queue : String) (args : List Arg)
    (retry_count0 : Option Nat) (max_retries : Nat) (now : Int) (jitter : ℚ) (rc : Nat)
    (hrc : current_retry_count retry_count0 args = some rc)
    (hlt : rc < max_retries) (hne : args ≠ []) :
    reschedule_job jobtype args queue retry_count0 max_retries now jitter =
      RescheduleOutcome.rescheduled
        ⟨jobtype, leading_args args ++ [Arg.dict (bump_bag (bag_of args) rc now)],
         queue, some (now + calculate_backoff rc 60 jitter)⟩ ∧
    pushed_jobs (reschedule_job jobtype args queue retry_count0 max_retries now jitter) =
      [⟨jobtype, leading_args args ++ [Arg.dict (bump_bag (bag_of args) rc now)],
        queue, some (now + calculate_backoff rc 60 jitter)⟩] ∧
    (bump_bag (bag_of args) rc now).retry_count = some (rc + 1) ∧
    ((bump_bag (bag_of args) rc now).previous_retries.getD []).length =
      ((bag_of args).previous_retries.getD []).length + 1 := by
  have h := reschedule_job_rescheduled_eq jobtype queue args retry_count0 max_retries now
    jitter rc hrc hlt hne
  refine ⟨h, by rw [h]; rfl, rfl, ?_⟩
  simp [bump_bag]

/-- Witness for C3: a concrete call with one prior retry (count 1, below
the cap 5) pushes exactly the rescheduled job with count 2. -/
theorem reschedule_job_below_cap_witness :
    reschedule_job "crawl-post" retry_args0 "crawl-post" none 5 0 1 =
      RescheduleOutcome.rescheduled
        ⟨"crawl-post", leading_args retry_args0 ++
          [Arg.dict (bump_bag (bag_of retry_args0) 1 0)],
         "crawl-post", some (0 + calculate_backoff 1 60 1)⟩ ∧
    pushed_jobs (reschedule_job "crawl-post" retry_args0 "crawl-post" none 5 0 1) =
      [⟨"crawl-post", leading_args retry_args0 ++
          [Arg.dict (bump_bag (bag_of retry_args0) 1 0)],
        "crawl-post", some (0 + calculate_backoff 1 60 1)⟩] ∧
    (bump_bag (bag_of retry_args0) 1 0).retry_count = some (1 + 1) ∧
    ((bump_bag (bag_of retry_args0) 1 0).previous_retries.getD []).length =
      ((bag_of retry_args0).previous_retries.getD []).length + 1 :=
  reschedule_job_below_cap "crawl-post" "crawl-post" retry_args0 none 5 0 1 1
    rfl (by decide) (by decide)

/-- Claim C5 counterexample: at `retry_count = 0`, `base_delay = 1` and
jitter factor `3/4 ∈ [0.75, 1.25]`, the truncated value `int(0.75) = 0`
falls strictly below the claimed lower bound `1 * 2^0 * 0.75`, so the
returned value does not always lie in the claimed closed interval. -/
theorem calculate_backoff_claimed_interval_counterexample :
    ¬ ((3/4 : ℚ) * (((1 : Nat) : ℚ) * 2 ^ (0 : Nat)) ≤ (calculate_backoff 0 1 (3/4) : ℚ) ∧
       (calculate_backoff 0 1 (3/4) : ℚ) ≤ (5/4 : ℚ) * (((1 : Nat) : ℚ) * 2 ^ (0 : Nat))) := by
  have hv : calculate_backoff 0 1 (3/4) = 0 := by
    unfold calculate_backoff
    norm_num
  rw [hv]
  norm_num

/-- Claim C5 as amended: because fractional seconds are truncated
(round-down), the returned value lies in
`[⌊base * 2^retryCount * 0.75⌋, base * 2^retryCount * 1.25]` for every
jitter factor in `[0.75, 1.25]`; the claimed untruncated lower bound holds
exactly when `base * 2^retryCount * 0.75` is an integer (in particular for
the default base of 60 seconds). -/
theorem calculate_backoff_amended_interval (retry_count base_delay : Nat) (jitter : ℚ)
    (hbase : 0 < base_delay) (hlo : 3/4 ≤ jitter) (hhi : jitter ≤ 5/4) :
    Int.floor ((3/4 : ℚ) * ((base_delay : ℚ) * 2 ^ retry_count)) ≤
      calculate_backoff retry_count base_delay jitter ∧
    (calculate_backoff retry_count base_delay jitter : ℚ) ≤
      (5/4 : ℚ) * ((base_delay : ℚ) * 2 ^ retry_count) := by
  have hx : (0 : ℚ) ≤ (base_delay : ℚ) * 2 ^ retry_count := by positivity
  have hlo2 := mul_le_mul_of_nonneg_left hlo hx
  have hhi2 := mul_le_mul_of_nonneg_left hhi hx
  unfold calculate_backoff
  constructor
  · apply Int.floor_le_floor
    linarith
  · have h1 := Int.floor_le (((base_delay : ℚ) * 2 ^ retry_count) * jitter)
    linarith

/-- Witness for the amended C5: at the default base 60, retry count 0 and
jitter 1, the value lies within the amended bounds. -/
theorem calculate_backoff_amended_interval_witness :
    Int.floor ((3/4 : ℚ) * (((60 : Nat) : ℚ) * 2 ^ (0 : Nat))) ≤ calculate_backoff 0 60 1 ∧
    (calculate_backoff 0 60 1 : ℚ) ≤ (5/4 : ℚ) * (((60 : Nat) : ℚ) * 2 ^ (0 : Nat)) :=
  calculate_backoff_amended_interval 0 60 1 (by norm_num) (by norm_num) (by norm_num)

/-- Every job the new-post loop of the main crawler pushes is a `crawl-post`
job. -/
theorem jobtype_of_mem_map_new_post_job (subreddit_name : String) (l : List String) (j : RJob)
    (hj : j ∈ l.map (new_post_job subreddit_name)) : j.jobtype = "crawl-post" := by
  obtain ⟨pid, _, rfl⟩ := List.mem_map.mp hj
  rfl

/-- On the success path of the main crawler every pushed job is a
`crawl-post` job: the continuation `next_job` is built but the source
pushes the loop variable instead. -/
theorem crawl_subreddit_ok_all_crawl_post (cfg : Config) (subreddit_name : String)
    (previous_post_ids : Option (List String)) (metadata : Option RetryMeta)
    (listing : Listing) (now : Int) (jitter : ℚ) (j : RJob)
    (hj : j ∈ crawl_subreddit cfg subreddit_name previous_post_ids metadata
        (ListingFetch.ok listing) now jitter) : j.jobtype = "crawl-post" := by
  simp only [crawl_subreddit] at hj
  split at hj
  case _ last_job heq =>
    rcases List.mem_append.mp hj with hmem | hmem
    · exact jobtype_of_mem_map_new_post_job subreddit_name _ j hmem
    · have hlast : last_job ∈ (new_posts_iter (previous_post_ids.getD [])
          (post_ids_from_listing listing)).map (new_post_job subreddit_name) := by
        obtain ⟨hne, heq2⟩ := List.mem_getLast?_eq_getLast (Option.mem_def.mpr heq)
        exact heq2 ▸ List.getLast_mem hne
      have hj2 : j = last_job := by simpa using hmem
      exact hj2 ▸ jobtype_of_mem_map_new_post_job subreddit_name _ last_job hlast
  case _ heq =>
    exact jobtype_of_mem_map_new_post_job subreddit_name _ j hj

/-- The count of continuation jobs a successful main-crawler poll pushes
is zero. -/
theorem countP_continuation_crawl_subreddit_ok (cfg : Config) (subreddit_name : String)
    (previous_post_ids : Option (List String)) (metadata : Option RetryMeta)
    (listing : Listing) (now : Int) (jitter : ℚ) :
    ((crawl_subreddit cfg subreddit_name previous_post_ids metadata
        (ListingFetch.ok listing) now jitter).countP
      (fun j => j.jobtype == "crawl-subreddit")) = 0 := by
  apply List.countP_eq_zero.mpr
  intro j hj
  have h := crawl_subreddit_ok_all_crawl_post cfg subreddit_name previous_post_ids
    metadata listing now jitter j hj
  simp [h]

/-- Claim C1: contrary to the claim, a successful `crawl_subreddit`
invocation in `src/reddit_crawler.py` never pushes the delayed
continuation `crawl-subreddit` job: for every configuration, feed,
prior snapshot and listing, the number of `crawl-subreddit` jobs among
the pushed jobs is zero (the source builds `next_job` but pushes the
loop variable `job` at line 279 instead). -/
theorem crawl_subreddit_success_pushes_no_continuation (cfg : Config)
    (subreddit_name : String) (previous_post_ids : Option (List String))
    (metadata : Option RetryMeta) (listing : Listing) (now : Int) (jitter : ℚ) :
    ((crawl_subreddit cfg subreddit_name previous_post_ids metadata
        (ListingFetch.ok listing) now jitter).countP
      (fun j => j.jobtype == "crawl-subreddit")) = 0 :=
  countP_continuation_crawl_subreddit_ok cfg subreddit_name previous_post_ids metadata
    listing now jitter

/-- Claim C6: a rate-limited `crawl_subreddit` invocation reschedules with
exactly the prior known-ID snapshot it received: any job it pushes is a
`crawl-subreddit` job whose first argument is the feed name and whose
second argument is the received snapshot (normalised to `[]` when the
invocation received `None`), so the snapshot never advances on a failed
poll. -/
theorem crawl_subreddit_rate_limited_keeps_snapshot (cfg : Config)
    (subreddit_name : String) (previous_post_ids : Option (List String))
    (metadata : Option RetryMeta) (now : Int) (jitter : ℚ) (j : RJob)
    (hj : j ∈ crawl_subreddit cfg subreddit_name previous_post_ids metadata
        ListingFetch.rateLimited now jitter) :
    j.jobtype = "crawl-subreddit" ∧
    j.args[0]? = some (Arg.str subreddit_name) ∧
    j.args[1]? = some (Arg.strList (previous_post_ids.getD [])) := by
  simp only [crawl_subreddit] at hj
  by_cases h5 : (metadata.getD RetryMeta.empty).retry_count.getD 0 < 5
  · rw [reschedule_job_rescheduled_eq "crawl-subreddit" "crawl-subreddit"
      [Arg.str subreddit_name, Arg.strList (previous_post_ids.getD []),
       Arg.dict (metadata.getD RetryMeta.empty)] none 5 now jitter
      ((metadata.getD RetryMeta.empty).retry_count.getD 0) rfl h5 (by simp)] at hj
    have hj2 := List.mem_singleton.mp hj
    subst hj2
    exact ⟨rfl, rfl, rfl⟩
  · rw [reschedule_job_dropped_eq "crawl-subreddit" "crawl-subreddit"
      [Arg.str subreddit_name, Arg.strList (previous_post_ids.getD []),
       Arg.dict (metadata.getD RetryMeta.empty)] none 5 now jitter
      ((metadata.getD RetryMeta.empty).retry_count.getD 0) rfl (Nat.not_lt.mp h5)] at hj
    simp [pushed_jobs] at hj

/-- Witness for C6: the concrete rate-limited poll of feed `"x"` with
snapshot `["a"]` pushes a job that still carries `["a"]`. -/
theorem crawl_subreddit_rate_limited_keeps_snapshot_witness :
    rl_job0.jobtype = "crawl-subreddit" ∧
    rl_job0.args[0]? = some (Arg.str "x") ∧
    rl_job0.args[1]? = some (Arg.strList ((some ["a"] : Option (List String)).getD [])) :=
  crawl_subreddit_rate_limited_keeps_snapshot cfg0 "x" (some ["a"]) none 0 1 rl_job0
    (List.mem_singleton.mpr rfl)

/-- Every job the new-post loop of the logging crawler pushes is a
`crawl-post` job. -/
theorem jobtype_of_mem_map_logging_new_post_job (subreddit_name : String)
    (l : List String) (j : RJob)
    (hj : j ∈ l.map (LoggingCrawler.new_post_job subreddit_name)) :
    j.jobtype = "crawl-post" := by
  obtain ⟨pid, _, rfl⟩ := List.mem_map.mp hj
  rfl

/-- Claim C10: the two `crawl_subreddit` implementations do not push
equivalent follow-up jobs on a successful poll: the logging variant
pushes exactly one delayed `crawl-subreddit` continuation while the main
variant pushes none (it pushes the last `crawl-post` job a second time
instead), for every feed, snapshot and listing. -/
theorem crawl_subreddit_variants_diverge (cfg : Config) (subreddit_name : String)
    (previous_post_ids : List String) (listing : Listing) (now : Int) (jitter : ℚ) :
    ((crawl_subreddit cfg subreddit_name (some previous_post_ids) none
        (ListingFetch.ok listing) now jitter).countP
      (fun j => j.jobtype == "crawl-subreddit")) = 0 ∧
    ((LoggingCrawler.crawl_subreddit cfg subreddit_name previous_post_ids
        (ListingFetch.ok listing) now).countP
      (fun j => j.jobtype == "crawl-subreddit")) = 1 := by
  constructor
  · exact countP_continuation_crawl_subreddit_ok cfg subreddit_name
      (some previous_post_ids) none listing now jitter
  · simp only [LoggingCrawler.crawl_subreddit]
    rw [List.countP_append]
    have h0 : ((new_posts_iter previous_post_ids (post_ids_from_listing listing)).map
        (LoggingCrawler.new_post_job subreddit_name)).countP
        (fun j => j.jobtype == "crawl-subreddit") = 0 := by
      apply List.countP_eq_zero.mpr
      intro j hj
      have h := jobtype_of_mem_map_logging_new_post_job subreddit_name _ j hj
      simp [h]
    rw [h0]
    rfl

/-- Claim C9: when a database error strikes partway through the single
transaction of a `crawl_post` invocation whose fetch succeeded, the store
is left unchanged (the `with`-block rolls the uncommitted transaction
back), no job is pushed (in particular no retry or reschedule), and the
failure is logged as an error. -/
theorem crawl_post_tx_failure_atomic (cfg : Config) (subreddit post_id : String)
    (is_recrawl : Bool) (metadata : Option RetryMeta) (pd : PostData) (k : Nat)
    (db : DB) (now : Int) (jitter : ℚ) :
    (crawl_post cfg subreddit post_id is_recrawl metadata (PostFetch.ok pd)
        (TxOutcome.failedAt k) db now jitter).db = db ∧
    (crawl_post cfg subreddit post_id is_recrawl metadata (PostFetch.ok pd)
        (TxOutcome.failedAt k) db now jitter).jobs = [] ∧
    (crawl_post cfg subreddit post_id is_recrawl metadata (PostFetch.ok pd)
        (TxOutcome.failedAt k) db now jitter).error_logged = true :=
  ⟨rfl, rfl, rfl⟩

/-- Claim C2: a `crawl_post` invocation whose fetch and transaction
succeed pushes, when it is an initial crawl of a positively scored post,
exactly one delayed `crawl-post` job per configured recrawl offset, each
with `is_recrawl = True`; in every other case (recrawl, or non-positive
score) it pushes no job at all, so recrawl fan-out is one generation
deep. -/
theorem crawl_post_recrawl_fanout (cfg : Config) (subreddit post_id : String)
    (is_recrawl : Bool) (metadata : Option RetryMeta) (pd : PostData)
    (db : DB) (now : Int) (jitter : ℚ) :
    ((is_recrawl = false ∧ 0 < pd.main.score) →
      ((crawl_post cfg subreddit post_id is_recrawl metadata (PostFetch.ok pd)
          TxOutcome.committed db now jitter).jobs.length = cfg.recrawl_delays.length ∧
       ∀ j ∈ (crawl_post cfg subreddit post_id is_recrawl metadata (PostFetch.ok pd)
          TxOutcome.committed db now jitter).jobs,
         j.jobtype = "crawl-post" ∧ j.args[2]? = some (Arg.bool true) ∧
           j.run_at.isSome = true)) ∧
    ((is_recrawl = true ∨ pd.main.score ≤ 0) →
      (crawl_post cfg subreddit post_id is_recrawl metadata (PostFetch.ok pd)
          TxOutcome.committed db now jitter).jobs = []) := by
  have hjobs : (crawl_post cfg subreddit post_id is_recrawl metadata (PostFetch.ok pd)
      TxOutcome.committed db now jitter).jobs =
      if is_recrawl = false ∧ 0 < pd.main.score then
        schedule_post_recrawls cfg subreddit post_id now
      else [] := rfl
  constructor
  · intro h
    rw [hjobs, if_pos h]
    constructor
    · simp [schedule_post_recrawls]
    · intro j hj
      obtain ⟨d, _, rfl⟩ := List.mem_map.mp (by simpa [schedule_post_recrawls] using hj)
      exact ⟨rfl, rfl, rfl⟩
  · intro h
    rw [hjobs, if_neg ?_]
    rcases h with h | h
    · intro hc
      rw [h] at hc
      exact Bool.noConfusion hc.1
    · intro hc
      exact absurd hc.2 (not_lt.mpr h)

/-- Witness for C2: the sample initial crawl of the positively scored
post `pd0` under `cfg0` pushes exactly three recrawl jobs, all with
`is_recrawl = True` and a scheduled time. -/
theorem crawl_post_recrawl_fanout_witness :
    (crawl_post cfg0 "x" "p" false none (PostFetch.ok pd0)
        TxOutcome.committed db0 0 1).jobs.length = cfg0.recrawl_delays.length ∧
    ∀ j ∈ (crawl_post cfg0 "x" "p" false none (PostFetch.ok pd0)
        TxOutcome.committed db0 0 1).jobs,
      j.jobtype = "crawl-post" ∧ j.args[2]? = some (Arg.bool true) ∧
        j.run_at.isSome = true :=
  (crawl_post_recrawl_fanout cfg0 "x" "p" false none pd0 db0 0 1).1 ⟨rfl, by decide⟩

/-- The conflict action keeps the key of the row. -/
theorem overwrite_post_id (r old : PostRow) :
    (overwrite_post r old).post_id = old.post_id := by
  unfold overwrite_post
  split
  · rfl
  · rfl

/-- After an upsert into a table holding at most one row for the key,
exactly one row for the key remains. -/
theorem upsert_post_row_filter_length (rows : List PostRow) (r : PostRow)
    (h : (rows.filter (fun q => q.post_id == r.post_id)).length ≤ 1) :
    ((upsert_post_row rows r).filter (fun q => q.post_id == r.post_id)).length = 1 := by
  by_cases hany : rows.any (fun old => old.post_id == r.post_id)
  · rw [upsert_post_row, if_pos hany, List.filter_map]
    have hcong : rows.filter ((fun q => q.post_id == r.post_id) ∘ overwrite_post r) =
        rows.filter (fun q => q.post_id == r.post_id) := by
      apply List.filter_congr
      intro x _
      simp [Function.comp, overwrite_post_id]
    rw [hcong, List.length_map]
    obtain ⟨x, hx, hpx⟩ := List.any_eq_true.mp hany
    have hxf : x ∈ rows.filter (fun q => q.post_id == r.post_id) :=
      List.mem_filter.mpr ⟨hx, hpx⟩
    have hpos : 0 < (rows.filter (fun q => q.post_id == r.post_id)).length :=
      List.length_pos.mpr (List.ne_nil_of_mem hxf)
    omega
  · rw [upsert_post_row, if_neg hany, List.filter_append]
    have hnil : rows.filter (fun q => q.post_id == r.post_id) = [] := by
      rw [List.filter_eq_nil_iff]
      intro x hx hpx
      exact hany (List.any_eq_true.mpr ⟨x, hx, hpx⟩)
    rw [hnil]
    simp

/-- Every row under the upserted key carries the score and
`crawled_at` of the upsert after it runs. -/
theorem upsert_post_row_latest (rows : List PostRow) (r q : PostRow)
    (hq : q ∈ upsert_post_row rows r) (hqid : q.post_id = r.post_id) :
    q.score = r.score ∧ q.crawled_at = r.crawled_at := by
  unfold upsert_post_row at hq
  by_cases hany : rows.any (fun old => old.post_id == r.post_id)
  · rw [if_pos hany] at hq
    obtain ⟨old, _, rfl⟩ := List.mem_map.mp hq
    have hid2 : old.post_id = r.post_id := by
      rw [overwrite_post_id] at hqid
      exact hqid
    simp [overwrite_post, hid2]
  · rw [if_neg hany] at hq
    rcases List.mem_append.mp hq with hmem | hmem
    · exact absurd (List.any_eq_true.mpr ⟨q, hmem, by simp [hqid]⟩) hany
    · have hqr : q = r := by simpa using hmem
      subst hqr
      exact ⟨rfl, rfl⟩

/-- Claim C8: upserting the same `post_id` twice (with different scores)
into a table holding at most one row for that key leaves exactly one row
for the key, whose score is the value of the second call and whose
`crawled_at` is the later of the two call timestamps. -/
theorem upsert_post_row_twice (rows : List PostRow) (r1 r2 : PostRow)
    (hid : r1.post_id = r2.post_id)
    (hscore : r1.score ≠ r2.score)
    (htime : r1.crawled_at ≤ r2.crawled_at)
    (hcount : (rows.filter (fun q => q.post_id == r1.post_id)).length ≤ 1) :
    ((upsert_post_row (upsert_post_row rows r1) r2).filter
        (fun q => q.post_id == r1.post_id)).length = 1 ∧
    ∀ q ∈ upsert_post_row (upsert_post_row rows r1) r2, q.post_id = r1.post_id →
      q.score = r2.score ∧ q.crawled_at = max r1.crawled_at r2.crawled_at := by
  have hp : (fun q : PostRow => q.post_id == r1.post_id) =
      (fun q : PostRow => q.post_id == r2.post_id) := by
    funext q
    rw [hid]
  constructor
  · rw [hp]
    apply upsert_post_row_filter_length
    rw [← hp]
    exact le_of_eq (upsert_post_row_filter_length rows r1 hcount)
  · intro q hq hqid
    have h := upsert_post_row_latest (upsert_post_row rows r1) r2 q hq (hqid.trans hid)
    exact ⟨h.1, by rw [h.2, max_eq_right htime]⟩

/-- Witness for C8: upserting `row1` (score 1, time 10) then `row2`
(score 2, time 20) for post `"p"` into the empty table leaves one row
with score 2 and `crawled_at` 20. -/
theorem upsert_post_row_twice_witness :
    ((upsert_post_row (upsert_post_row [] row1) row2).filter
        (fun q => q.post_id == row1.post_id)).length = 1 ∧
    ∀ q ∈ upsert_post_row (upsert_post_row [] row1) row2, q.post_id = row1.post_id →
      q.score = row2.score ∧ q.crawled_at = max row1.crawled_at row2.crawled_at :=
  upsert_post_row_twice [] row1 row2 rfl (by decide) (by decide) (by decide)

end RedditCrawler
